import Mathlib

set_option maxRecDepth 20000

/-!
# Verification of the SecurAI case-management services

Shallow embedding of the configuration store, the GROQ chat gateway with its
mock fallback, the transcription post-processing, the license-plate salvage
scanner, the image sharpening convolution and the per-case retrieval
functions of `src/services/groqService.ts`, `src/services/databaseService.ts`
and the superseded service copy in `unnamed/part_004`.

Browser storage is modelled per key by the outcome of `JSON.parse` on the
stored string; network I/O is modelled by passing the outcome of the single
`fetch` a gateway performs as an explicit argument, together with the list of
requests the gateway issued.
-/

/-- A parsed JSON tree, the result of a successful `JSON.parse`.
Numbers are modelled as rationals. -/
inductive Json where
  | null : Json
  | bool (b : Bool) : Json
  | num (q : ℚ) : Json
  | str (s : String) : Json
  | arr (elems : List Json) : Json
  | obj (fields : List (String × Json)) : Json

/-- Property access `j.k` on a parsed JSON value: `none` when the field is
absent or the value is not an object (JS yields `undefined` there). -/
def jsonLookup (j : Json) (k : String) : Option Json :=
  match j with
  | .obj fields => fields.lookup k
  | _ => none

/-- The string content of a JSON value, when it is a string. -/
def asString (j : Json) : Option String :=
  match j with
  | .str s => some s
  | _ => none

/-- `GroqAPISettings` (groqService.ts lines 3-10); identical to the
`GroqSettings` type of the superseded copy (part_004 lines 5-12). -/
structure GroqAPISettings where
  groqApiKey : String
  groqApiEndpoint : String
  groqModel : String
  whisperModel : String
  whisperApiEndpoint : String
  language : String
  deriving DecidableEq, Repr

/-- `JSON.stringify` of a full settings record, modelled at the level of the
parsed JSON tree; field order is the object-literal order of the source. -/
def encodeSettings (s : GroqAPISettings) : Json :=
  .obj [("groqApiKey", .str s.groqApiKey),
        ("groqApiEndpoint", .str s.groqApiEndpoint),
        ("groqModel", .str s.groqModel),
        ("whisperModel", .str s.whisperModel),
        ("whisperApiEndpoint", .str s.whisperApiEndpoint),
        ("language", .str s.language)]

/-- Reading a settings record back out of a JSON tree (deep equality of the
restored record with the saved one is stated through this decoder). -/
def decodeSettings (j : Json) : Option GroqAPISettings := do
  let key ← jsonLookup j "groqApiKey" >>= asString
  let endp ← jsonLookup j "groqApiEndpoint" >>= asString
  let model ← jsonLookup j "groqModel" >>= asString
  let wModel ← jsonLookup j "whisperModel" >>= asString
  let wEndp ← jsonLookup j "whisperApiEndpoint" >>= asString
  let lang ← jsonLookup j "language" >>= asString
  pure ⟨key, endp, model, wModel, wEndp, lang⟩

/-- Default settings returned by `getGroqSettings` when nothing is stored
(groqService.ts lines 23-30). -/
def defaultGroqSettings : GroqAPISettings :=
  { groqApiKey := ""
    groqApiEndpoint := "https://api.groq.com/openai/v1/chat/completions"
    groqModel := "meta-llama/llama-4-scout-17b-16e-instruct"
    whisperModel := "distil-whisper-large-v3"
    whisperApiEndpoint := "https://api.groq.com/openai/v1/audio/transcriptions"
    language := "pt" }

/-- Default settings returned by the `catch` branch of `getGroqSettings`
(groqService.ts lines 36-43); a second identical literal in the source. -/
def defaultGroqSettingsOnError : GroqAPISettings :=
  { groqApiKey := ""
    groqApiEndpoint := "https://api.groq.com/openai/v1/chat/completions"
    groqModel := "meta-llama/llama-4-scout-17b-16e-instruct"
    whisperModel := "distil-whisper-large-v3"
    whisperApiEndpoint := "https://api.groq.com/openai/v1/audio/transcriptions"
    language := "pt" }

/-- `DEFAULT_GROQ_SETTINGS` of the superseded copy (part_004 lines 15-22). -/
def DEFAULT_GROQ_SETTINGS_P4 : GroqAPISettings :=
  { groqApiKey := ""
    groqApiEndpoint := "https://api.groq.com/openai/v1/chat/completions"
    groqModel := "llama-3-8b-8192"
    whisperModel := "whisper-large-v3"
    whisperApiEndpoint := "https://api.groq.com/openai/v1/audio/transcriptions"
    language := "pt" }

/-- A present localStorage entry, abstracted by its `JSON.parse` outcome:
`.malformed` models a string on which `JSON.parse` throws, `.parsed j` a
string parsing to the tree `j`.  `Option StoredString` adds the missing
(or empty, hence falsy) case as `none`. -/
inductive StoredString where
  | malformed : StoredString
  | parsed (j : Json) : StoredString

/-- `getGroqSettings` (groqService.ts lines 15-45).  The stored string, when
present and parseable, is returned unvalidated (the TS code casts the parse
result); a missing entry or a parse exception yields the default literal of
the corresponding branch.  Total by construction: every storage state maps
to a value, i.e. the function never throws. -/
def getGroqSettingsJson (cell : Option StoredString) : Json :=
  match cell with
  | some (.parsed j) => j
  | some .malformed => encodeSettings defaultGroqSettingsOnError
  | none => encodeSettings defaultGroqSettings

/-- `saveGroqSettings` (groqService.ts lines 50-58): serializes the record and
overwrites the stored entry unconditionally.  Models the write succeeding
(on a storage exception the entry would be left unchanged). -/
def saveGroqSettings (cfg : GroqAPISettings) : Option StoredString :=
  some (.parsed (encodeSettings cfg))

/-- `getGroqSettings` of the superseded copy (part_004 lines 25-41).  Same
shape; its extra key-logging line dereferences the parsed value, so a stored
`null` throws and lands in the catch branch, which returns the defaults. -/
def getGroqSettingsP4 (cell : Option StoredString) : Json :=
  match cell with
  | some (.parsed .null) => encodeSettings DEFAULT_GROQ_SETTINGS_P4
  | some (.parsed j) => j
  | some .malformed => encodeSettings DEFAULT_GROQ_SETTINGS_P4
  | none => encodeSettings DEFAULT_GROQ_SETTINGS_P4

/-- `saveGroqSettings` of the superseded copy (part_004 lines 44-54): stores
`{...DEFAULT_GROQ_SETTINGS, ...settings}`; for a full record every default
field is overridden, so the stored object is the record itself. -/
def saveGroqSettingsP4 (cfg : GroqAPISettings) : Option StoredString :=
  some (.parsed (encodeSettings cfg))

/-- C3: writing a full configuration record and reading it back yields a
record deep-equal to the one written (both the current service and the
superseded part_004 copy), provided the storage write and read succeed. -/
theorem saveGroqSettings_getGroqSettings_roundtrip (cfg : GroqAPISettings) :
    decodeSettings (getGroqSettingsJson (saveGroqSettings cfg)) = some cfg ∧
    decodeSettings (getGroqSettingsP4 (saveGroqSettingsP4 cfg)) = some cfg := by
  cases cfg
  exact ⟨rfl, rfl⟩

/-- C4: `getGroqSettings` is total on every storage state (never throws), and
on a missing entry or a parse exception both implementations return their
fixed default configuration, whose API key is empty and whose endpoint URLs
and model identifiers are non-empty. -/
theorem getGroqSettings_default_on_missing_or_unparseable :
    getGroqSettingsJson none = encodeSettings defaultGroqSettings ∧
    getGroqSettingsJson (some .malformed) = encodeSettings defaultGroqSettingsOnError ∧
    defaultGroqSettingsOnError = defaultGroqSettings ∧
    getGroqSettingsP4 none = encodeSettings DEFAULT_GROQ_SETTINGS_P4 ∧
    getGroqSettingsP4 (some .malformed) = encodeSettings DEFAULT_GROQ_SETTINGS_P4 ∧
    defaultGroqSettings.groqApiKey = "" ∧
    defaultGroqSettings.groqApiEndpoint ≠ "" ∧
    defaultGroqSettings.groqModel ≠ "" ∧
    defaultGroqSettings.whisperApiEndpoint ≠ "" ∧
    defaultGroqSettings.whisperModel ≠ "" ∧
    DEFAULT_GROQ_SETTINGS_P4.groqApiKey = "" ∧
    DEFAULT_GROQ_SETTINGS_P4.groqApiEndpoint ≠ "" ∧
    DEFAULT_GROQ_SETTINGS_P4.groqModel ≠ "" ∧
    DEFAULT_GROQ_SETTINGS_P4.whisperApiEndpoint ≠ "" ∧
    DEFAULT_GROQ_SETTINGS_P4.whisperModel ≠ "" := by
  refine ⟨rfl, rfl, rfl, rfl, rfl, rfl, ?_, ?_, ?_, ?_, rfl, ?_, ?_, ?_, ?_⟩ <;> decide

/-- Substring containment, the semantics of JS `String.prototype.includes`. -/
def includesStr (s pat : String) : Bool := decide (pat.data <:+: s.data)

/-- One entry of an array-valued message content (groqService.ts lines 466-477):
a part object with a `type` field (modelled as `ctype`) and optional `text`
and `image_url.url` fields. -/
structure ContentPart where
  ctype : String
  text : Option String
  imageUrl : Option String
  deriving DecidableEq, Repr

/-- Message content: either a plain string or an ordered list of parts. -/
inductive MsgContent where
  | str (s : String) : MsgContent
  | parts (ps : List ContentPart) : MsgContent
  deriving DecidableEq, Repr

/-- A chat message `{ role, content }`. -/
structure ChatMessage where
  role : String
  content : MsgContent
  deriving DecidableEq, Repr

/-- The user-content extraction of `generateMockAIResponse` (groqService.ts
lines 117-134): the last message whose role is `"user"`; for array content,
the text of the first part whose `type` is `"text"`, when that text is
present and truthy (non-empty); otherwise the empty string. -/
def extractUserContent (messages : List ChatMessage) : String :=
  let userMessages := messages.filter (fun m => m.role == "user")
  match userMessages.getLast? with
  | none => ""
  | some m =>
    match m.content with
    | .str s => s
    | .parts ps =>
      match ps.find? (fun p => p.ctype == "text") with
      | some p =>
        match p.text with
        | some t => if t = "" then "" else t
        | none => ""
      | none => ""

/-- The mock document analysis (groqService.ts lines 138-172). -/
def mockBoletimAnalysis : String := String.intercalate "\n"
  ["# Análise de Boletim de Ocorrência",
   "",
   "## 1. Resumo do Incidente",
   "O boletim relata um furto de veículo ocorrido em 15/05/2023 na Avenida Paulista. A vítima, João da Silva, teve seu Toyota Corolla preto, placa ABC-1234, furtado enquanto estava estacionado em via pública. O veículo não possui seguro.",
   "",
   "## 2. Dados da Vítima",
   "- **Nome**: João da Silva",
   "- **Documentos**: RG 12.345.678-9, CPF 123.456.789-00",
   "- **Endereço**: Rua das Flores, 123, São Paulo/SP",
   "",
   "## 3. Dados do Suspeito",
   "Não há informações sobre suspeitos no registro.",
   "",
   "## 4. Descrição Detalhada dos Fatos",
   "A vítima estacionou seu veículo por volta das 10:00h e ao retornar às 14:00h, constatou que o mesmo havia sido subtraído. Não há câmeras de segurança no local que possam auxiliar na identificação dos autores ou no esclarecimento da dinâmica dos fatos.",
   "",
   "## 5. Sugestões para Investigação",
   "- Verificar câmeras de segurança em estabelecimentos próximos",
   "- Incluir o veículo no sistema de alerta de veículos furtados/roubados",
   "- Investigar ocorrências similares na região para identificar padrões",
   "- Verificar se há histórico de receptação de veículos na área",
   "",
   "## 6. Despacho Sugerido",
   "Solicito que sejam tomadas as providências para inclusão do veículo nos sistemas de alerta e busca. Sugiro investigação em áreas conhecidas por desmanche e receptação de veículos.",
   "",
   "## 7. Pontos de Atenção",
   "- A ocorrência aconteceu em área central com grande fluxo de pessoas",
   "- Ausência de câmeras de segurança no local exato do furto",
   "- O período entre o estacionamento e a constatação do furto foi de 4 horas",
   "",
   "## 8. Possíveis Contradições/Inconsistências",
   "Não foram detectadas inconsistências significativas no relato.",
   "",
   "## 9. Classificação Penal Sugerida",
   "Furto de veículo automotor (Art. 155, § 3º do Código Penal)"]

/-- The fixed mock OCR/face/license-plate payload: `JSON.stringify` of the
object literal at groqService.ts lines 175-200, rendered exactly as the
stringify call does (insertion order, no spacing, `\n` escapes). -/
def mockImageAnalysisJson : String :=
  "\x7b\"ocr_text\":\"PLACA DE TESTE ABC1234\\nDOCUMENTO OFICIAL\\nNOME: JOSÉ SILVA\\nRG: 12.345.678-9\",\"faces\":[\x7b\"id\":1,\"confidence\":0.92,\"region\":\x7b\"x\":120,\"y\":80,\"width\":100,\"height\":100\x7d\x7d,\x7b\"id\":2,\"confidence\":0.85,\"region\":\x7b\"x\":320,\"y\":150,\"width\":90,\"height\":90\x7d\x7d],\"license_plates\":[\"ABC1234\",\"XYZ5678\"]\x7d"

/-- The mock audio transcription reply (groqService.ts lines 203-219). -/
def mockAudioResponse : String := String.intercalate "\n"
  ["Transcrição do áudio: ",
   "",
   "Investigador: Bom dia, pode me contar o que aconteceu ontem à noite?",
   "",
   "Testemunha: Bom dia. Sim, eu estava chegando em casa por volta das 22h quando vi dois homens discutindo na frente do prédio. Um deles parecia muito alterado.",
   "",
   "Investigador: Você conseguiu identificar algum deles?",
   "",
   "Testemunha: Um deles eu reconheci como sendo o morador do apartamento 302. O outro eu nunca tinha visto antes. Era um homem alto, careca, usava uma jaqueta preta.",
   "",
   "Investigador: O que aconteceu durante a discussão?",
   "",
   "Testemunha: Eles começaram a discutir mais alto, depois o homem da jaqueta empurrou o morador do 302. Foi quando eu decidi entrar rápido no prédio e chamar o porteiro.",
   "",
   "Investigador: Você viu para onde eles foram depois?",
   "",
   "Testemunha: Quando o porteiro saiu para verificar, já não havia ninguém lá fora."]

/-- Ambient impurity of the mock report (groqService.ts lines 225-227):
the current year, `Math.floor(Math.random() * 1000)` and the locale date
string, passed explicitly. -/
structure MockEnv where
  year : ℕ
  randNum : ℕ
  dateStr : String
  deriving DecidableEq, Repr

/-- The mock investigation report (groqService.ts lines 222-265). -/
def mockInvestigationReport (env : MockEnv) : String := String.intercalate "\n"
  ["# RELATÓRIO DE INVESTIGAÇÃO",
   "",
   "## IDENTIFICAÇÃO",
   "**Caso Nº:** " ++ toString env.year ++ "-" ++ toString env.randNum,
   "**Investigador Responsável:** Delegado Dr. Roberto Almeida",
   "**Data do Relatório:** " ++ env.dateStr,
   "",
   "## RESUMO DAS EVIDÊNCIAS ANALISADAS",
   "Foram analisadas múltiplas evidências relacionadas ao caso em questão, incluindo boletins de ocorrência, registros fotográficos, transcrições de áudio e análises de vínculos entre os envolvidos. O conjunto probatório indica uma possível conexão entre os eventos relatados e os suspeitos identificados.",
   "",
   "## ANÁLISE TÉCNICA DAS EVIDÊNCIAS",
   "",
   "### Boletim de Ocorrência",
   "O registro policial inicial apresenta consistência com os fatos posteriormente apurados. A vítima relatou com precisão detalhes que puderam ser corroborados por outras evidências coletadas, especialmente quanto à descrição do veículo utilizado pelos suspeitos e o modus operandi.",
   "",
   "### Registros Fotográficos",
   "As imagens analisadas revelam correspondência com os suspeitos descritos pelas testemunhas. A placa veicular ABC1234 identificada nas fotografias pertence a um veículo com histórico de envolvimento em ocorrências similares, o que reforça a linha investigativa adotada.",
   "",
   "### Transcrições de Áudio",
   "Os depoimentos transcritos apresentam elementos convergentes e complementares entre si, sem contradições significativas que comprometam a credibilidade dos relatos. As declarações das testemunhas são coerentes com as demais evidências físicas coletadas.",
   "",
   "## CORRELAÇÕES ENTRE AS EVIDÊNCIAS",
   "Há forte correlação temporal e espacial entre os eventos relatados e as evidências coletadas. O cruzamento de informações permite estabelecer uma linha cronológica consistente dos fatos. A análise de vínculos demonstra conexões entre os suspeitos identificados, com padrões de comunicação e deslocamento compatíveis com a prática dos delitos investigados.",
   "",
   "## CONCLUSÕES PRELIMINARES",
   "Com base nas evidências analisadas, é possível concluir preliminarmente que:",
   "",
   "1. O crime foi praticado por grupo organizado com divisão de tarefas",
   "2. Há fortes indícios de premeditação e planejamento",
   "3. O perfil dos suspeitos corresponde ao histórico de ocorrências similares na região",
   "4. Existe alta probabilidade de reincidência caso não sejam adotadas medidas preventivas",
   "",
   "## RECOMENDAÇÕES PARA PRÓXIMOS PASSOS",
   "1. Expedição de mandados de busca e apreensão nos endereços vinculados aos principais suspeitos",
   "2. Requisição de quebra de sigilo telefônico dos números identificados na análise de vínculos",
   "3. Oitiva complementar das testemunhas para esclarecimento de pontos específicos",
   "4. Realização de reconhecimento fotográfico com apresentação de álbum de suspeitos",
   "5. Intensificação do patrulhamento preventivo nas áreas identificadas como de maior incidência",
   "",
   "Documento elaborado em conformidade com os procedimentos investigativos previstos no Código de Processo Penal.",
   "",
   "**[ASSINATURA DIGITAL]**",
   "Dr. Roberto Almeida",
   "Delegado de Polícia - Matrícula 12345"]

/-- `JSON.stringify` of the mock link-analysis graph (groqService.ts
lines 268-285). -/
def mockLinkAnalysisJson : String :=
  "\x7b\"nodes\":[\x7b\"id\":\"1\",\"label\":\"João Silva\",\"group\":\"suspect\",\"size\":12\x7d,\x7b\"id\":\"2\",\"label\":\"Maria Souza\",\"group\":\"victim\",\"size\":8\x7d,\x7b\"id\":\"3\",\"label\":\"Empresa ABC\",\"group\":\"organization\",\"size\":10\x7d,\x7b\"id\":\"4\",\"label\":\"Carlos Santos\",\"group\":\"suspect\",\"size\":11\x7d,\x7b\"id\":\"5\",\"label\":\"Apartamento 302\",\"group\":\"location\",\"size\":7\x7d,\x7b\"id\":\"6\",\"label\":\"Veículo ABC1234\",\"group\":\"evidence\",\"size\":9\x7d],\"links\":[\x7b\"source\":\"1\",\"target\":\"3\",\"value\":7,\"type\":\"works_at\"\x7d,\x7b\"source\":\"1\",\"target\":\"4\",\"value\":9,\"type\":\"knows\"\x7d,\x7b\"source\":\"1\",\"target\":\"5\",\"value\":5,\"type\":\"owns\"\x7d,\x7b\"source\":\"4\",\"target\":\"6\",\"value\":8,\"type\":\"owns\"\x7d,\x7b\"source\":\"6\",\"target\":\"2\",\"value\":6,\"type\":\"evidence_link\"\x7d,\x7b\"source\":\"3\",\"target\":\"2\",\"value\":4,\"type\":\"victim_connection\"\x7d]\x7d"

/-- The generic mock reply (groqService.ts line 289). -/
def mockGenericResponse : String :=
  "Este é um texto de resposta simulado para testes. A funcionalidade está em modo de demonstração sem uma chave de API configurada. Para utilizar a versão completa, configure uma chave de API GROQ válida nas configurações do sistema."

/-- `generateMockAIResponse` (groqService.ts lines 114-291): the keyword
cascade over the extracted user content, in source order. -/
def generateMockAIResponse (env : MockEnv) (messages : List ChatMessage) : String :=
  let userContent := extractUserContent messages
  if includesStr userContent "boletim de ocorrência" ||
     includesStr userContent "Analise o seguinte conteúdo extraído" then
    mockBoletimAnalysis
  else if includesStr userContent "imagem" || includesStr userContent "image" then
    mockImageAnalysisJson
  else if includesStr userContent "áudio" || includesStr userContent "audio" then
    mockAudioResponse
  else if includesStr userContent "relatório de investigação" ||
          includesStr userContent "investigation" then
    mockInvestigationReport env
  else if includesStr userContent "link analysis" || includesStr userContent "grafo" ||
          includesStr userContent "vínculos" then
    mockLinkAnalysisJson
  else
    mockGenericResponse

/-- JS `String.prototype.trim`: strip leading and trailing whitespace
(ASCII whitespace; the extra Unicode space classes JS also strips are not
needed by any string in this development). -/
def jsTrim (s : String) : String :=
  ⟨((s.data.dropWhile Char.isWhitespace).reverse.dropWhile Char.isWhitespace).reverse⟩

/-- Outcome of the single `fetch` a gateway performs: a 2xx response with a
parsed JSON body, a non-2xx response (with the error text the code reads
from it), or a thrown network exception. -/
inductive HttpOutcome where
  | ok (body : Json) : HttpOutcome
  | httpError (emsg : String) : HttpOutcome
  | networkError (emsg : String) : HttpOutcome

/-- An HTTP request as built by the gateways: URL, method, header list and
the fields of the `JSON.stringify`-ed body, in source order. -/
structure ChatRequest where
  url : String
  method : String
  headers : List (String × String)
  bodyFields : List (String × Json)

/-- Serialization of one content part into the request body. -/
def encodeContentPart (p : ContentPart) : Json :=
  .obj ([("type", .str p.ctype)] ++
        (match p.text with | some t => [("text", .str t)] | none => []) ++
        (match p.imageUrl with | some u => [("image_url", .obj [("url", .str u)])] | none => []))

/-- Serialization of one chat message into the request body. -/
def encodeChatMessage (m : ChatMessage) : Json :=
  .obj [("role", .str m.role),
        ("content", match m.content with
          | .str s => .str s
          | .parts ps => .arr (ps.map encodeContentPart))]

/-- The request built by `makeGroqAIRequest` (groqService.ts lines 79-92):
POST, bearer auth, body `{model, messages, temperature, max_tokens, top_p}`
with temperature 0.7 and top_p 1. -/
def mkChatRequest (settings : GroqAPISettings) (messages : List ChatMessage)
    (maxTokens : ℕ) : ChatRequest :=
  { url := settings.groqApiEndpoint
    method := "POST"
    headers := [("Content-Type", "application/json"),
                ("Authorization", "Bearer " ++ settings.groqApiKey)]
    bodyFields := [("model", .str settings.groqModel),
                   ("messages", .arr (messages.map encodeChatMessage)),
                   ("temperature", .num (7/10)),
                   ("max_tokens", .num (maxTokens : ℚ)),
                   ("top_p", .num 1)] }

/-- The request built by the superseded copy (part_004 lines 68-79): POST,
bearer auth, body `{model, messages, max_tokens}` only. -/
def mkChatRequestP4 (settings : GroqAPISettings) (messages : List ChatMessage)
    (maxTokens : ℕ) : ChatRequest :=
  { url := settings.groqApiEndpoint
    method := "POST"
    headers := [("Content-Type", "application/json"),
                ("Authorization", "Bearer " ++ settings.groqApiKey)]
    bodyFields := [("model", .str settings.groqModel),
                   ("messages", .arr (messages.map encodeChatMessage)),
                   ("max_tokens", .num (maxTokens : ℚ))] }

/-- `data.choices[0].message.content` when it is a string; `none` models the
property chain failing (in the lenient gateway that throw is caught by the
surrounding `try`). -/
def extractChatContent (body : Json) : Option String := do
  let choices ← jsonLookup body "choices"
  match choices with
  | .arr (first :: _) =>
    let msg ← jsonLookup first "message"
    let content ← jsonLookup msg "content"
    asString content
  | _ => none

/-- `makeGroqAIRequest` (groqService.ts lines 63-109), instrumented with the
list of HTTP requests it issues.  With a falsy (empty) API key it answers
from the mock generator without building any request; otherwise it issues
one POST and on any failure — non-2xx response, network exception, or a
success body whose `choices[0].message.content` chain throws inside the
`try` — falls back to the mock generator. -/
def makeGroqAIRequest (settings : GroqAPISettings) (messages : List ChatMessage)
    (maxTokens : ℕ) (env : MockEnv) (net : HttpOutcome) : String × List ChatRequest :=
  if settings.groqApiKey = "" then
    (generateMockAIResponse env messages, [])
  else
    let req := mkChatRequest settings messages maxTokens
    match net with
    | .ok body =>
      match extractChatContent body with
      | some c => (c, [req])
      | none => (generateMockAIResponse env messages, [req])
    | .httpError _ => (generateMockAIResponse env messages, [req])
    | .networkError _ => (generateMockAIResponse env messages, [req])

/-- `makeGroqAIRequest` of the superseded copy (part_004 lines 57-97): a
missing or whitespace-only key raises `API key not configured`; a non-2xx
response raises a `GROQ API error: ...` message; a network exception is
rethrown; a success body without `choices[0].message` raises the
invalid-format error.  Every error is rethrown to the caller. -/
def makeGroqAIRequestP4 (settings : GroqAPISettings) (messages : List ChatMessage)
    (maxTokens : ℕ) (net : HttpOutcome) : Except String String × List ChatRequest :=
  if settings.groqApiKey = "" ∨ jsTrim settings.groqApiKey = "" then
    (.error "API key not configured", [])
  else
    let req := mkChatRequestP4 settings messages maxTokens
    match net with
    | .ok body =>
      match extractChatContent body with
      | some c => (.ok c, [req])
      | none => (.error "Invalid response format from GROQ API", [req])
    | .httpError emsg => (.error ("GROQ API error: " ++ emsg), [req])
    | .networkError emsg => (.error emsg, [req])

/-- C1 fails as stated: with an empty key, a request whose last user message
contains "imagem" but also contains the document-analysis keyword takes the
earlier branch of the mock cascade and yields the document-analysis mock,
not the OCR/face/license-plate payload. -/
theorem makeGroqAIRequest_imagem_counterexample :
    includesStr "Analise o seguinte conteúdo extraído da imagem" "imagem" = true ∧
    defaultGroqSettings.groqApiKey = "" ∧
    (makeGroqAIRequest defaultGroqSettings
        [⟨"user", .str "Analise o seguinte conteúdo extraído da imagem"⟩]
        1024 ⟨2023, 1, "01/01/2023"⟩ (.networkError "down")).1 = mockBoletimAnalysis ∧
    mockBoletimAnalysis ≠ mockImageAnalysisJson := by
  refine ⟨by decide, rfl, rfl, by decide⟩

/-- C1 (amended): with an empty API key, whenever the extracted content of
the last user message contains the substring "imagem" and contains neither
document-analysis keyword of the earlier cascade branch, the gateway
returns the fixed mock OCR/face/license-plate JSON payload together with an
empty request list — i.e. it returns before any HTTP request is built. -/
theorem makeGroqAIRequest_empty_key_imagem_mock
    (settings : GroqAPISettings) (messages : List ChatMessage) (maxTokens : ℕ)
    (env : MockEnv) (net : HttpOutcome)
    (hkey : settings.groqApiKey = "")
    (h1 : includesStr (extractUserContent messages) "imagem" = true)
    (h2 : includesStr (extractUserContent messages) "boletim de ocorrência" = false)
    (h3 : includesStr (extractUserContent messages) "Analise o seguinte conteúdo extraído" = false) :
    makeGroqAIRequest settings messages maxTokens env net = (mockImageAnalysisJson, []) := by
  simp [makeGroqAIRequest, generateMockAIResponse, hkey, h1, h2, h3]

/-- Closed instance of the C1 theorem. -/
theorem makeGroqAIRequest_empty_key_imagem_mock_witness :
    makeGroqAIRequest defaultGroqSettings [⟨"user", .str "Analise a imagem anexada"⟩]
      1024 ⟨2023, 1, "01/01/2023"⟩ (.networkError "down") = (mockImageAnalysisJson, []) :=
  makeGroqAIRequest_empty_key_imagem_mock _ _ _ _ _ rfl (by decide) (by decide) (by decide)

/-- C2: on a non-2xx response or a network exception after a request was
issued, the lenient gateway always substitutes the mock response, while the
superseded strict gateway always rethrows an error to the caller. -/
theorem gateway_failure_mock_or_error
    (settings : GroqAPISettings) (messages : List ChatMessage) (maxTokens : ℕ)
    (env : MockEnv) (emsg : String)
    (hkey : settings.groqApiKey ≠ "")
    (htrim : jsTrim settings.groqApiKey ≠ "") :
    (makeGroqAIRequest settings messages maxTokens env (.httpError emsg)).1 =
      generateMockAIResponse env messages ∧
    (makeGroqAIRequest settings messages maxTokens env (.networkError emsg)).1 =
      generateMockAIResponse env messages ∧
    (makeGroqAIRequestP4 settings messages maxTokens (.httpError emsg)).1 =
      .error ("GROQ API error: " ++ emsg) ∧
    (makeGroqAIRequestP4 settings messages maxTokens (.networkError emsg)).1 =
      .error emsg := by
  simp [makeGroqAIRequest, makeGroqAIRequestP4, hkey, htrim]

/-- Closed instance of the C2 theorem. -/
theorem gateway_failure_mock_or_error_witness :
    (makeGroqAIRequest ⟨"k", "https://e", "m", "w", "wu", "pt"⟩ [] 1024
        ⟨2023, 1, "01/01/2023"⟩ (.httpError "500")).1 =
      generateMockAIResponse ⟨2023, 1, "01/01/2023"⟩ [] ∧
    (makeGroqAIRequestP4 ⟨"k", "https://e", "m", "w", "wu", "pt"⟩ [] 1024
        (.networkError "down")).1 = .error "down" := by
  have h := gateway_failure_mock_or_error ⟨"k", "https://e", "m", "w", "wu", "pt"⟩ []
    1024 ⟨2023, 1, "01/01/2023"⟩ "500" (by decide) (by decide)
  have h2 := gateway_failure_mock_or_error ⟨"k", "https://e", "m", "w", "wu", "pt"⟩ []
    1024 ⟨2023, 1, "01/01/2023"⟩ "down" (by decide) (by decide)
  exact ⟨h.1, h2.2.2.2⟩

/-- The request list a lenient-gateway call issues: none with a falsy key,
exactly one otherwise. -/
theorem makeGroqAIRequest_requests (settings : GroqAPISettings)
    (messages : List ChatMessage) (maxTokens : ℕ) (env : MockEnv) (net : HttpOutcome) :
    (makeGroqAIRequest settings messages maxTokens env net).2 = [] ∨
    (makeGroqAIRequest settings messages maxTokens env net).2 =
      [mkChatRequest settings messages maxTokens] := by
  unfold makeGroqAIRequest
  split
  · exact Or.inl rfl
  · cases net with
    | ok body => cases hx : extractChatContent body <;> simp [hx]
    | httpError emsg => simp
    | networkError emsg => simp

/-- The request list a strict-gateway call issues: none with a missing or
blank key, exactly one otherwise. -/
theorem makeGroqAIRequestP4_requests (settings : GroqAPISettings)
    (messages : List ChatMessage) (maxTokens : ℕ) (net : HttpOutcome) :
    (makeGroqAIRequestP4 settings messages maxTokens net).2 = [] ∨
    (makeGroqAIRequestP4 settings messages maxTokens net).2 =
      [mkChatRequestP4 settings messages maxTokens] := by
  unfold makeGroqAIRequestP4
  split
  · exact Or.inl rfl
  · cases net with
    | ok body => cases hx : extractChatContent body <;> simp [hx]
    | httpError emsg => simp
    | networkError emsg => simp

/-- C8 fails as stated over both gateway versions: the superseded strict
gateway, with a non-empty key, issues a request whose JSON body has exactly
the fields model, messages, max_tokens — temperature and top_p are absent. -/
theorem chatRequest_body_fields_counterexample :
    (makeGroqAIRequestP4 ⟨"k", "https://e", "m", "w", "wu", "pt"⟩ [] 5
        (.networkError "down")).2 = [mkChatRequestP4 ⟨"k", "https://e", "m", "w", "wu", "pt"⟩ [] 5] ∧
    (mkChatRequestP4 ⟨"k", "https://e", "m", "w", "wu", "pt"⟩ [] 5).bodyFields.map Prod.fst =
      ["model", "messages", "max_tokens"] ∧
    "temperature" ∉ (mkChatRequestP4 ⟨"k", "https://e", "m", "w", "wu", "pt"⟩ [] 5).bodyFields.map Prod.fst ∧
    "top_p" ∉ (mkChatRequestP4 ⟨"k", "https://e", "m", "w", "wu", "pt"⟩ [] 5).bodyFields.map Prod.fst :=
  ⟨rfl, rfl, by decide, by decide⟩

/-- C8 (amended): every request the current gateway issues with a non-empty
key is a POST to the configured chat endpoint carrying the
`Authorization: Bearer <apiKey>` header and a JSON body with exactly the
fields model, messages, temperature, max_tokens, top_p (in that source
order); requests of the superseded strict copy carry exactly model,
messages, max_tokens. -/
theorem chatRequest_shape (settings : GroqAPISettings) (messages : List ChatMessage)
    (maxTokens : ℕ) (env : MockEnv) (net : HttpOutcome) :
    (∀ req ∈ (makeGroqAIRequest settings messages maxTokens env net).2,
      req.method = "POST" ∧ req.url = settings.groqApiEndpoint ∧
      ("Authorization", "Bearer " ++ settings.groqApiKey) ∈ req.headers ∧
      req.bodyFields.map Prod.fst = ["model", "messages", "temperature", "max_tokens", "top_p"]) ∧
    (∀ req ∈ (makeGroqAIRequestP4 settings messages maxTokens net).2,
      req.method = "POST" ∧ req.url = settings.groqApiEndpoint ∧
      ("Authorization", "Bearer " ++ settings.groqApiKey) ∈ req.headers ∧
      req.bodyFields.map Prod.fst = ["model", "messages", "max_tokens"]) := by
  constructor
  · intro req hreq
    rcases makeGroqAIRequest_requests settings messages maxTokens env net with h | h <;>
      rw [h] at hreq
    · simp at hreq
    · rw [List.mem_singleton] at hreq
      subst hreq
      exact ⟨rfl, rfl, by simp [mkChatRequest], rfl⟩
  · intro req hreq
    rcases makeGroqAIRequestP4_requests settings messages maxTokens net with h | h <;>
      rw [h] at hreq
    · simp at hreq
    · rw [List.mem_singleton] at hreq
      subst hreq
      exact ⟨rfl, rfl, by simp [mkChatRequestP4], rfl⟩

/-- Closed instance of the C8 theorem. -/
theorem chatRequest_shape_witness :
    (mkChatRequest ⟨"k", "https://e", "m", "w", "wu", "pt"⟩ [] 5).method = "POST" ∧
    (mkChatRequest ⟨"k", "https://e", "m", "w", "wu", "pt"⟩ [] 5).url = "https://e" ∧
    ("Authorization", "Bearer k") ∈ (mkChatRequest ⟨"k", "https://e", "m", "w", "wu", "pt"⟩ [] 5).headers ∧
    (mkChatRequest ⟨"k", "https://e", "m", "w", "wu", "pt"⟩ [] 5).bodyFields.map Prod.fst =
      ["model", "messages", "temperature", "max_tokens", "top_p"] := by
  have h := (chatRequest_shape ⟨"k", "https://e", "m", "w", "wu", "pt"⟩ [] 5
      ⟨2023, 1, "01/01/2023"⟩ (.networkError "down")).1
    (mkChatRequest ⟨"k", "https://e", "m", "w", "wu", "pt"⟩ [] 5)
    (by rw [show (makeGroqAIRequest ⟨"k", "https://e", "m", "w", "wu", "pt"⟩ [] 5
          ⟨2023, 1, "01/01/2023"⟩ (.networkError "down")).2 =
        [mkChatRequest ⟨"k", "https://e", "m", "w", "wu", "pt"⟩ [] 5] from rfl]
        exact List.mem_singleton.mpr rfl)
  exact h

/-- `List.map` with the element index, recursing structurally. -/
def mapWithIndex (f : ℕ → α → β) : ℕ → List α → List β
  | _, [] => []
  | i, a :: as => f i a :: mapWithIndex f (i + 1) as

/-- One segment of the Whisper `verbose_json` response. -/
structure RawSegment where
  start : ℚ
  endTime : ℚ
  text : String
  deriving DecidableEq, Repr

/-- The `{text, segments}` portion of the transcription response body
(segments empty when the response carries none). -/
structure WhisperResponse where
  text : String
  segments : List RawSegment
  deriving DecidableEq, Repr

/-- A speaker-tagged segment of the transcription result (`end` is modelled
as `endTime`). -/
structure SpeakerSegment where
  start : ℚ
  endTime : ℚ
  speaker : String
  text : String
  deriving DecidableEq, Repr

/-- The `{text, speakerSegments}` result of `transcribeAudioWithGroq`. -/
structure TranscriptionResult where
  text : String
  speakerSegments : List SpeakerSegment
  deriving DecidableEq, Repr

/-- A terminal-punctuation character, the class `[.!?]` of the sentence
split (groqService.ts line 350). -/
def isTerminalPunct (c : Char) : Bool := c = '.' || c = '!' || c = '?'

/-- JS `String.prototype.split` on a character class, keeping empty fields,
over the character list. -/
def splitChars (p : Char → Bool) : List Char → List (List Char)
  | [] => [[]]
  | c :: cs =>
    let r := splitChars p cs
    if p c then [] :: r
    else
      match r with
      | [] => [[c]]
      | h :: t => (c :: h) :: t

/-- The sentence list of the synthetic-segment path (groqService.ts line
350): split on terminal punctuation, keep the fields whose trim is
non-empty.  The source splits on the regex `[.!?]+`; the `+` collapses runs
of punctuation, which differs from the single-character split only by empty
fields, and those are removed by this very filter, so the two splits agree
after filtering. -/
def sentencesOf (text : String) : List String :=
  ((splitChars isTerminalPunct text.data).map (fun l => String.mk l)).filter
    (fun s => (jsTrim s).length > 0)

/-- The synthetic speaker segments (groqService.ts lines 350-356):
5-second-per-sentence timing, alternating speaker tags, trimmed sentence
text with a restored period. -/
def syntheticSegments (text : String) : List SpeakerSegment :=
  mapWithIndex (fun idx s =>
    { start := ((idx * 5 : ℕ) : ℚ)
      endTime := (((idx + 1) * 5 : ℕ) : ℚ)
      speaker := "Speaker " ++ toString (idx % 2 + 1)
      text := jsTrim s ++ "." }) 0 (sentencesOf text)

/-- Post-processing of a successful transcription response
(groqService.ts lines 338-391): map the returned segments to speaker tags
rotating every three segments; when no segments were returned, synthesize
them from the text.  The later AI speaker-enhancement step returns the same
`{text, speakerSegments}` value on both its success and failure paths. -/
def processTranscription (resp : WhisperResponse) : TranscriptionResult :=
  let speakerSegments := mapWithIndex (fun i s =>
    { start := s.start
      endTime := s.endTime
      speaker := "Speaker " ++ toString (i / 3 % 2 + 1)
      text := s.text } : ℕ → RawSegment → SpeakerSegment) 0 resp.segments
  if speakerSegments.length = 0 then
    { text := resp.text, speakerSegments := syntheticSegments resp.text }
  else
    { text := resp.text, speakerSegments := speakerSegments }

/-- `get?` of `mapWithIndex`. -/
theorem mapWithIndex_get? (f : ℕ → α → β) (n : ℕ) (l : List α) (i : ℕ) :
    (mapWithIndex f n l).get? i = (l.get? i).map (fun a => f (n + i) a) := by
  induction l generalizing n i with
  | nil => simp [mapWithIndex]
  | cons a as ih =>
    cases i with
    | zero => simp [mapWithIndex]
    | succ j =>
      simp only [mapWithIndex, List.get?_cons_succ, ih, Nat.add_succ, Nat.succ_add]

/-- C6: with a text but no segments, the synthesized segmentation splits the
text on terminal punctuation, tags sentences with alternating speakers and
5-second-per-sentence timing; on the example text it yields exactly three
segments Speaker 1 / Speaker 2 / Speaker 1 at 0–5s, 5–10s, 10–15s. -/
theorem transcription_synthetic_segments :
    (∀ text, (processTranscription ⟨text, []⟩).speakerSegments = syntheticSegments text) ∧
    (∀ text i seg, (syntheticSegments text).get? i = some seg →
      seg.start = ((i * 5 : ℕ) : ℚ) ∧ seg.endTime = (((i + 1) * 5 : ℕ) : ℚ) ∧
      seg.speaker = "Speaker " ++ toString (i % 2 + 1)) ∧
    processTranscription ⟨"Hello there. How are you? Fine thanks.", []⟩ =
      ⟨"Hello there. How are you? Fine thanks.",
       [⟨0, 5, "Speaker 1", "Hello there."⟩,
        ⟨5, 10, "Speaker 2", "How are you."⟩,
        ⟨10, 15, "Speaker 1", "Fine thanks."⟩]⟩ := by
  refine ⟨fun text => rfl, fun text i seg h => ?_, by decide⟩
  rw [syntheticSegments, mapWithIndex_get?] at h
  cases hs : (sentencesOf text).get? i with
  | none => rw [hs] at h; simp at h
  | some s =>
    rw [hs] at h
    simp only [Option.map_some', Option.some.injEq] at h
    subst h
    refine ⟨?_, ?_, ?_⟩ <;> simp

/-- Closed instance of the C6 theorem's per-index part. -/
theorem transcription_synthetic_segments_witness :
    (⟨5, 10, "Speaker 2", "How are you."⟩ : SpeakerSegment).start = ((1 * 5 : ℕ) : ℚ) ∧
    (⟨5, 10, "Speaker 2", "How are you."⟩ : SpeakerSegment).endTime = (((1 + 1) * 5 : ℕ) : ℚ) ∧
    (⟨5, 10, "Speaker 2", "How are you."⟩ : SpeakerSegment).speaker =
      "Speaker " ++ toString (1 % 2 + 1) :=
  transcription_synthetic_segments.2.1 "Hello there. How are you? Fine thanks." 1
    ⟨5, 10, "Speaker 2", "How are you."⟩ (by decide)

/-- JS `o.caseId === caseId` on a parsed record: true exactly when the field
is present, is a string, and equals the argument. -/
def caseIdMatches (o : Json) (caseId : String) : Bool :=
  match jsonLookup o "caseId" with
  | some (.str s) => s == caseId
  | _ => false

/-- The record array under one analysis-domain storage key (empty when the
key is absent, unparseable, or holds a non-array value). -/
def storedRecords (cell : Option StoredString) : List Json :=
  match cell with
  | some (.parsed (.arr records)) => records
  | _ => []

/-- Shared shape of the three per-domain retrieval functions: on a missing
key, a parse failure, or a non-array value (whose `.filter` access throws
and is caught) return `[]`; otherwise the linear-scan filter on `caseId`. -/
def filterByCaseId (cell : Option StoredString) (caseId : String) : List Json :=
  match cell with
  | some (.parsed (.arr records)) => records.filter (fun o => caseIdMatches o caseId)
  | _ => []

/-- `getOccurrencesByCaseId` (databaseService.ts lines 206-233). -/
def getOccurrencesByCaseId (cell : Option StoredString) (caseId : String) : List Json :=
  filterByCaseId cell caseId

/-- `getAudioTranscriptionsByCaseId` (databaseService.ts lines 272-294). -/
def getAudioTranscriptionsByCaseId (cell : Option StoredString) (caseId : String) : List Json :=
  filterByCaseId cell caseId

/-- `getImageAnalysesByCaseId` (databaseService.ts lines 334-356). -/
def getImageAnalysesByCaseId (cell : Option StoredString) (caseId : String) : List Json :=
  filterByCaseId cell caseId

/-- C9: each retrieval function returns exactly the stored records whose
`caseId` equals the argument, as a sublist (hence in stored order), and
returns `[]` without throwing when the key is absent or unparseable. -/
theorem getByCaseId_spec (cell : Option StoredString) (caseId : String) :
    getOccurrencesByCaseId cell caseId = (storedRecords cell).filter (fun o => caseIdMatches o caseId) ∧
    getAudioTranscriptionsByCaseId cell caseId = (storedRecords cell).filter (fun o => caseIdMatches o caseId) ∧
    getImageAnalysesByCaseId cell caseId = (storedRecords cell).filter (fun o => caseIdMatches o caseId) ∧
    (getOccurrencesByCaseId cell caseId).Sublist (storedRecords cell) ∧
    (∀ o, o ∈ getOccurrencesByCaseId cell caseId ↔
      o ∈ storedRecords cell ∧ caseIdMatches o caseId = true) ∧
    getOccurrencesByCaseId none caseId = [] ∧
    getOccurrencesByCaseId (some .malformed) caseId = [] ∧
    getAudioTranscriptionsByCaseId none caseId = [] ∧
    getAudioTranscriptionsByCaseId (some .malformed) caseId = [] ∧
    getImageAnalysesByCaseId none caseId = [] ∧
    getImageAnalysesByCaseId (some .malformed) caseId = [] := by
  have heq : getOccurrencesByCaseId cell caseId =
      (storedRecords cell).filter (fun o => caseIdMatches o caseId) := by
    cases cell with
    | none => rfl
    | some st =>
      cases st with
      | malformed => rfl
      | parsed j => cases j <;> rfl
  refine ⟨heq, heq, heq, ?_, ?_, rfl, rfl, rfl, rfl, rfl, rfl⟩
  · rw [heq]; exact List.filter_sublist _
  · intro o
    rw [heq, List.mem_filter]


/-- The class `[A-Z]` of the license-plate regex. -/
def isUpperAZ (c : Char) : Bool := 'A' ≤ c && c ≤ 'Z'

/-- The class `[0-9]`. -/
def isDigit09 (c : Char) : Bool := '0' ≤ c && c ≤ '9'

/-- The separator class `[-\x5cs]`: hyphen or whitespace (ASCII whitespace;
the separators occurring in plates are hyphen and space). -/
def isPlateSep (c : Char) : Bool := c = '-' || Char.isWhitespace c

/-- The class `[0-9A-Z]`. -/
def isAlnumAZ09 (c : Char) : Bool := isDigit09 c || isUpperAZ c

/-- The numeric tail `[0-9][0-9A-Z]?[0-9]{2}` of the plate pattern
`/[A-Z]{3}[-\x5cs]?[0-9][0-9A-Z]?[0-9]{2}/` (groqService.ts lines 510, 530),
with the greedy optional and its backtracking: four characters when
possible, otherwise three.  Returns the consumed match and the remainder. -/
def tailNum : List Char → Option (List Char × List Char)
  | d1 :: c2 :: d3 :: d4 :: rest =>
    if isDigit09 d1 then
      if isAlnumAZ09 c2 && isDigit09 d3 && isDigit09 d4 then
        some ([d1, c2, d3, d4], rest)
      else if isDigit09 c2 && isDigit09 d3 then
        some ([d1, c2, d3], d4 :: rest)
      else none
    else none
  | [d1, c2, d3] =>
    if isDigit09 d1 && isDigit09 c2 && isDigit09 d3 then some ([d1, c2, d3], []) else none
  | _ => none

theorem tailNum_split {cs m r : List Char} (h : tailNum cs = some (m, r)) :
    cs = m ++ r ∧ tailNum m = some (m, []) ∧ ∃ d ds, m = d :: ds ∧ isDigit09 d = true := by
  unfold tailNum at h
  split at h
  · rename_i d1 c2 d3 d4 rest
    split at h
    · rename_i h1
      split at h
      · rename_i h2
        obtain ⟨rfl, rfl⟩ : [d1, c2, d3, d4] = m ∧ rest = r := by simpa using h
        refine ⟨by simp, ?_, d1, [c2, d3, d4], rfl, h1⟩
        simp only [tailNum, h1, h2]
        simp
      · split at h
        · rename_i h2 h3
          obtain ⟨rfl, rfl⟩ : [d1, c2, d3] = m ∧ d4 :: rest = r := by simpa using h
          rw [Bool.and_eq_true] at h3
          refine ⟨by simp, ?_, d1, [c2, d3], rfl, h1⟩
          simp only [tailNum]
          simp [h1, h3.1, h3.2]
        · exact absurd h (by simp)
    · exact absurd h (by simp)
  · rename_i d1 c2 d3
    split at h
    · rename_i h1
      obtain ⟨rfl, rfl⟩ : [d1, c2, d3] = m ∧ ([] : List Char) = r := by simpa using h
      have h1' := h1
      rw [Bool.and_eq_true, Bool.and_eq_true] at h1'
      refine ⟨by simp, ?_, d1, [c2, d3], rfl, h1'.1.1⟩
      simp only [tailNum]
      simp [h1]
    · exact absurd h (by simp)
  · exact absurd h (by simp)

theorem tailNum_extend {m : List Char} (h : tailNum m = some (m, [])) (post : List Char) :
    (tailNum (m ++ post)).isSome = true := by
  unfold tailNum at h
  split at h
  · rename_i d1 c2 d3 d4 rest
    split at h
    · rename_i h1
      split at h
      · rename_i h2
        obtain ⟨hm, hr⟩ : [d1, c2, d3, d4] = d1 :: c2 :: d3 :: d4 :: rest ∧ rest = ([] : List Char) := by
          simpa using h
        subst hr
        simp [tailNum, h1, h2]
      · split at h
        · obtain ⟨hm, hr⟩ : [d1, c2, d3] = d1 :: c2 :: d3 :: d4 :: rest ∧ d4 :: rest = ([] : List Char) := by
            simpa using h
          simp at hr
        · exact absurd h (by simp)
    · exact absurd h (by simp)
  · rename_i d1 c2 d3
    split at h
    · rename_i h1
      rw [Bool.and_eq_true, Bool.and_eq_true] at h1
      obtain ⟨⟨hd1, hc2⟩, hd3⟩ := h1
      cases post with
      | nil => simp [tailNum, hd1, hc2, hd3]
      | cons p ps =>
        show (tailNum (d1 :: c2 :: d3 :: p :: ps)).isSome = true
        simp only [tailNum, hd1, if_true]
        split
        · simp
        · simp [hc2, hd3]
    · exact absurd h (by simp)
  · exact absurd h (by simp)

theorem digit_not_sep {c : Char} (hd : isDigit09 c = true) : isPlateSep c = false := by
  by_contra hne
  rw [Bool.not_eq_false] at hne
  simp only [isPlateSep, Char.isWhitespace, Bool.or_eq_true, decide_eq_true_eq] at hne
  rcases hne with h | (((h | h) | h) | h) <;> subst h <;> exact absurd hd (by decide)

/-- One attempt of the plate pattern anchored at the head of the list:
three uppercase letters, an optional separator (which, when present but not
followed by a valid numeric tail, cannot be re-matched by `[0-9]`, so the
attempt fails), then the numeric tail. -/
def plateMatchAt : List Char → Option (List Char × List Char)
  | l1 :: l2 :: l3 :: rest =>
    if isUpperAZ l1 && isUpperAZ l2 && isUpperAZ l3 then
      match rest with
      | s :: rest2 =>
        if isPlateSep s then
          match tailNum rest2 with
          | some (m, r) => some (l1 :: l2 :: l3 :: s :: m, r)
          | none => none
        else
          match tailNum rest with
          | some (m, r) => some (l1 :: l2 :: l3 :: m, r)
          | none => none
      | [] => none
    else none
  | _ => none

theorem plateMatchAt_split {cs m r : List Char} (h : plateMatchAt cs = some (m, r)) :
    cs = m ++ r ∧ m ≠ [] ∧ plateMatchAt m = some (m, []) := by
  unfold plateMatchAt at h
  split at h
  · rename_i l1 l2 l3 rest
    split at h
    · rename_i hU
      split at h
      · rename_i s rest2
        split at h
        · rename_i hS
          split at h
          · rename_i mt rt hT
            obtain ⟨rfl, rfl⟩ : l1 :: l2 :: l3 :: s :: mt = m ∧ rt = r := by simpa using h
            obtain ⟨hsplit, hself, d, ds, hd, hdig⟩ := tailNum_split hT
            refine ⟨by simp [hsplit], by simp, ?_⟩
            simp only [plateMatchAt, hU, if_true, hS, if_true, hself]
          · exact absurd h (by simp)
        · rename_i hS
          split at h
          · rename_i mt rt hT
            obtain ⟨rfl, rfl⟩ : l1 :: l2 :: l3 :: mt = m ∧ rt = r := by simpa using h
            obtain ⟨hsplit, hself, d, ds, hd, hdig⟩ := tailNum_split hT
            refine ⟨by simp [hsplit], by simp, ?_⟩
            subst hd
            simp only [plateMatchAt, hU, if_true, digit_not_sep hdig, hself]
            simp
          · exact absurd h (by simp)
      · exact absurd h (by simp)
    · exact absurd h (by simp)
  · exact absurd h (by simp)

theorem plateMatchAt_extend {m : List Char} (h : plateMatchAt m = some (m, []))
    (post : List Char) : (plateMatchAt (m ++ post)).isSome = true := by
  unfold plateMatchAt at h
  split at h
  · rename_i l1 l2 l3 rest
    split at h
    · rename_i hU
      split at h
      · rename_i s rest2
        split at h
        · rename_i hS
          split at h
          · rename_i mt rt hT
            obtain ⟨hmt, hrt⟩ : mt = rest2 ∧ rt = ([] : List Char) := by
              have := h
              simp only [Option.some.injEq, Prod.mk.injEq, List.cons.injEq, true_and] at this
              exact ⟨this.1, this.2⟩
            subst hmt; subst hrt
            show (plateMatchAt (l1 :: l2 :: l3 :: s :: (mt ++ post))).isSome = true
            simp only [plateMatchAt, hU, if_true, hS, if_true]
            cases htn : tailNum (mt ++ post) with
            | none =>
              have := tailNum_extend hT post
              rw [htn] at this
              simp at this
            | some mr => cases mr; simp
          · exact absurd h (by simp)
        · rename_i hS
          split at h
          · rename_i mt rt hT
            obtain ⟨hmt, hrt⟩ : mt = s :: rest2 ∧ rt = ([] : List Char) := by
              have := h
              simp only [Option.some.injEq, Prod.mk.injEq, List.cons.injEq, true_and] at this
              exact ⟨this.1, this.2⟩
            subst hmt; subst hrt
            show (plateMatchAt (l1 :: l2 :: l3 :: s :: (rest2 ++ post))).isSome = true
            simp only [plateMatchAt, hU, if_true]
            rw [if_neg (by simp [hS])]
            cases htn : tailNum (s :: (rest2 ++ post)) with
            | none =>
              have h2 : (tailNum (s :: (rest2 ++ post))).isSome = true :=
                tailNum_extend hT post
              rw [htn] at h2
              simp at h2
            | some mr => cases mr; rfl
          · exact absurd h (by simp)
      · exact absurd h (by simp)
    · exact absurd h (by simp)
  · exact absurd h (by simp)

/-- The global scan of `text.match(/.../g)`: leftmost non-overlapping
matches, advancing one character on failure, with explicit fuel (one unit
per character suffices, see the length bound of the lemmas below). -/
def scanPlatesFuel : ℕ → List Char → List (List Char)
  | 0, _ => []
  | _ + 1, [] => []
  | fuel + 1, c :: cs =>
    match plateMatchAt (c :: cs) with
    | some (m, r) => m :: scanPlatesFuel fuel r
    | none => scanPlatesFuel fuel cs

def scanPlates (cs : List Char) : List (List Char) := scanPlatesFuel cs.length cs

theorem scanPlatesFuel_sound {fuel : ℕ} {cs mm : List Char}
    (h : mm ∈ scanPlatesFuel fuel cs) :
    ∃ pre post, cs = pre ++ mm ++ post ∧ plateMatchAt mm = some (mm, []) := by
  induction fuel generalizing cs with
  | zero => simp [scanPlatesFuel] at h
  | succ fuel ih =>
    cases cs with
    | nil => simp [scanPlatesFuel] at h
    | cons c cs =>
      rw [scanPlatesFuel] at h
      cases hm : plateMatchAt (c :: cs) with
      | some mr =>
        obtain ⟨m, r⟩ := mr
        rw [hm] at h
        simp only [List.mem_cons] at h
        rcases h with rfl | h
        · obtain ⟨hsplit, -, hfull⟩ := plateMatchAt_split hm
          exact ⟨[], r, by simpa using hsplit, hfull⟩
        · obtain ⟨pre, post, heq, hfull⟩ := ih h
          obtain ⟨hsplit, -, -⟩ := plateMatchAt_split hm
          exact ⟨m ++ pre, post, by rw [hsplit, heq]; simp, hfull⟩
      | none =>
        rw [hm] at h
        obtain ⟨pre, post, heq, hfull⟩ := ih h
        exact ⟨c :: pre, post, by simp [heq], hfull⟩

theorem scanPlatesFuel_complete {fuel : ℕ} {pre m post : List Char}
    (hfull : plateMatchAt m = some (m, []))
    (hlen : (pre ++ m ++ post).length ≤ fuel) :
    scanPlatesFuel fuel (pre ++ m ++ post) ≠ [] := by
  induction fuel generalizing pre with
  | zero =>
    exfalso
    obtain ⟨-, hne, -⟩ := plateMatchAt_split hfull
    have h1 : m.length = 0 := by
      simp only [List.length_append, Nat.le_zero] at hlen
      omega
    exact hne (List.length_eq_zero.mp h1)
  | succ fuel ih =>
    cases pre with
    | nil =>
      obtain ⟨-, hne, -⟩ := plateMatchAt_split hfull
      obtain ⟨c, cs, hc⟩ := List.exists_cons_of_ne_nil hne
      have hsome := plateMatchAt_extend hfull post
      rw [List.nil_append]
      rw [show m ++ post = c :: (cs ++ post) from by rw [hc]; simp]
      rw [scanPlatesFuel]
      cases hm : plateMatchAt (c :: (cs ++ post)) with
      | some mr => cases mr; simp
      | none =>
        rw [show m ++ post = c :: (cs ++ post) from by rw [hc]; simp] at hsome
        rw [hm] at hsome
        simp at hsome
    | cons p pre' =>
      rw [show (p :: pre') ++ m ++ post = p :: (pre' ++ m ++ post) from by simp]
      rw [scanPlatesFuel]
      cases hm : plateMatchAt (p :: (pre' ++ m ++ post)) with
      | some mr => cases mr; simp
      | none =>
        have hlen' : (pre' ++ m ++ post).length ≤ fuel := by
          simp only [List.length_append, List.length_cons] at hlen ⊢
          omega
        exact ih hlen'

/-- `plate.replace(/[-\x5cs]/g, '')`: drop every separator character
(groqService.ts lines 513 and 531). -/
def stripPlateSeps (m : List Char) : String := ⟨m.filter (fun c => !isPlateSep c)⟩

/-- The regex salvage shared by both sites of `analyzeImageWithGroq`: all
global matches of the plate pattern in the text, separators stripped
(groqService.ts lines 510-515 on the OCR text, lines 530-531 on the raw
reply). -/
def extractPlatesFromText (t : String) : List String :=
  (scanPlates t.data).map stripPlateSeps

/-- The parsed-path fallback (groqService.ts lines 508-516): when the parsed
plate list is empty and the OCR text truthy, push every stripped regex
match of the OCR text. -/
def analyzeImagePlates (parsedPlates : List String) (ocrText : String) : List String :=
  if parsedPlates.isEmpty ∧ ocrText ≠ "" then parsedPlates ++ extractPlatesFromText ocrText
  else parsedPlates

/-- C7: every extracted plate is a full greedy match of the plate regex
occurring in the text with its separators stripped; whenever the text
contains a full match the extraction is non-empty; the parsed-path
fallback applies the same extraction to the OCR text; and the input
"ABC-1234" yields exactly the plate "ABC1234". -/
theorem plate_salvage_spec :
    (∀ t p, p ∈ extractPlatesFromText t →
      ∃ pre mtch post, t.data = pre ++ mtch ++ post ∧
        plateMatchAt mtch = some (mtch, []) ∧ p = stripPlateSeps mtch) ∧
    (∀ pre mtch post, plateMatchAt mtch = some (mtch, []) →
      extractPlatesFromText ⟨pre ++ mtch ++ post⟩ ≠ []) ∧
    (∀ ocr, ocr ≠ "" → analyzeImagePlates [] ocr = extractPlatesFromText ocr) ∧
    extractPlatesFromText "ABC-1234" = ["ABC1234"] := by
  refine ⟨?_, ?_, ?_, by decide⟩
  · intro t p hp
    rw [extractPlatesFromText, List.mem_map] at hp
    obtain ⟨mm, hmm, rfl⟩ := hp
    obtain ⟨pre, post, heq, hfull⟩ := scanPlatesFuel_sound hmm
    exact ⟨pre, mm, post, heq, hfull, rfl⟩
  · intro pre mtch post hfull
    have h := @scanPlatesFuel_complete ((pre ++ mtch ++ post).length) pre mtch post hfull le_rfl
    intro hcon
    rw [extractPlatesFromText] at hcon
    exact h (List.map_eq_nil_iff.mp hcon)
  · intro ocr h
    simp [analyzeImagePlates, h]

/-- Closed instance of the C7 theorem. -/
theorem plate_salvage_spec_witness :
    extractPlatesFromText ⟨"xx".data ++ "ABC1234".data ++ "!".data⟩ ≠ [] :=
  plate_salvage_spec.2.1 "xx".data "ABC1234".data "!".data (by decide)


/-- `data[idx]`: a byte read from the pixel array (default 0; the convolution
only reads in-range indices for interior pixels of a well-formed image). -/
def dataGet (d : List ℕ) (i : ℕ) : ℕ := d.getD i 0

/-- The 3×3 sharpen kernel (groqService.ts lines 685-689), row-major:
corner weight 0, four-neighbor weight −1, center weight 5.7.  Real
arithmetic is modelled exactly over ℚ; for byte inputs the float evaluation
of the source rounds to the same bytes (5.7·c falls on an exact half only
when 57c/10 is a dyadic half-integer, which float64 hits exactly). -/
def sharpenKernel : List ℚ := [0, -1, 0, -1, 57/10, -1, 0, -1, 0]

/-- The accumulation loop over kernel offsets for pixel (x, y), channel c
(groqService.ts lines 697-703, shifted to offsets 0..2; the loops call it
with 1 ≤ x and 1 ≤ y), reading the original `data` array. -/
def convVal (d : List ℕ) (w x y c : ℕ) : ℚ :=
  ((List.range 3).map (fun ky =>
    ((List.range 3).map (fun kx =>
      (dataGet d (((y + ky - 1) * w + (x + kx - 1)) * 4 + c) : ℚ) *
        sharpenKernel.getD (ky * 3 + kx) 0)).sum)).sum

/-- `Math.min(255, Math.max(0, val))` (line 704) followed by the
`Uint8ClampedArray` store, which rounds to the nearest integer with ties
to even. -/
def clampRound (q : ℚ) : ℕ :=
  let clamped := min 255 (max 0 q)
  let f : ℤ := ⌊clamped⌋
  (if clamped - f < 1 / 2 then f
   else if 1 / 2 < clamped - f then f + 1
   else if f % 2 = 0 then f else f + 1).toNat

/-- The byte written at channel c of pixel (x, y). -/
def clampPix (d : List ℕ) (w x y c : ℕ) : ℕ := clampRound (convVal d w x y c)

/-- The channel loop `for c in 0..2` writing one pixel (lines 696-705). -/
def writePixel (d : List ℕ) (w x y : ℕ) (b : List ℕ) : List ℕ :=
  (List.range 3).foldl (fun acc c => acc.set ((y * w + x) * 4 + c) (clampPix d w x y c)) b

/-- The inner loop `for x = 1; x < w - 1` over one row (line 693). -/
def writeRow (d : List ℕ) (w y : ℕ) (b : List ℕ) : List ℕ :=
  (List.range (w - 2)).foldl (fun acc i => writePixel d w (i + 1) y acc) b

/-- The outer loop `for y = 1; y < h - 1` (line 692), starting from the
copied buffer `new Uint8ClampedArray(data)` (line 682). -/
def sharpenData (d : List ℕ) (w h : ℕ) : List ℕ :=
  (List.range (h - 2)).foldl (fun acc j => writeRow d w (j + 1) acc) d

/-- An `ImageData`: width, height and the RGBA byte array (length 4·w·h for
a well-formed image). -/
structure ImageData where
  width : ℕ
  height : ℕ
  data : List ℕ
  deriving DecidableEq, Repr

/-- `sharpenImage` (groqService.ts lines 678-711). -/
def sharpenImage (img : ImageData) : ImageData :=
  { width := img.width, height := img.height
    data := sharpenData img.data img.width img.height }

/-- The convolution as the claim words it: center weight 5.7, four-neighbor
weight −1, corners 0.  Stated from the spec, to be compared with the
loop-shaped `convVal` of the source. -/
def specSharpConv (d : List ℕ) (w x y c : ℕ) : ℚ :=
  (57 / 10) * (dataGet d ((y * w + x) * 4 + c) : ℚ)
    - (dataGet d (((y - 1) * w + x) * 4 + c) : ℚ)
    - (dataGet d (((y + 1) * w + x) * 4 + c) : ℚ)
    - (dataGet d ((y * w + (x - 1)) * 4 + c) : ℚ)
    - (dataGet d ((y * w + (x + 1)) * 4 + c) : ℚ)

theorem range3 : List.range 3 = [0, 1, 2] := rfl

/-- The source's kernel loop computes exactly the claimed convolution. -/
theorem convVal_eq_spec (d : List ℕ) (w x y c : ℕ) :
    convVal d w x y c = specSharpConv d w x y c := by
  have e2 : ∀ z : ℕ, z + 2 - 1 = z + 1 := fun z => by omega
  have k0 : sharpenKernel.getD (0 * 3 + 0) 0 = 0 := rfl
  have k1 : sharpenKernel.getD (0 * 3 + 1) 0 = -1 := rfl
  have k2 : sharpenKernel.getD (0 * 3 + 2) 0 = 0 := rfl
  have k3 : sharpenKernel.getD (1 * 3 + 0) 0 = -1 := rfl
  have k4 : sharpenKernel.getD (1 * 3 + 1) 0 = 57 / 10 := rfl
  have k5 : sharpenKernel.getD (1 * 3 + 2) 0 = -1 := rfl
  have k6 : sharpenKernel.getD (2 * 3 + 0) 0 = 0 := rfl
  have k7 : sharpenKernel.getD (2 * 3 + 1) 0 = -1 := rfl
  have k8 : sharpenKernel.getD (2 * 3 + 2) 0 = 0 := rfl
  rw [convVal, range3]
  simp only [List.map_cons, List.map_nil, List.sum_cons, List.sum_nil,
    k0, k1, k2, k3, k4, k5, k6, k7, k8, Nat.add_zero, Nat.add_sub_cancel, e2]
  rw [specSharpConv]
  ring

theorem get?_set_ne (l : List ℕ) (m n a : ℕ) (h : m ≠ n) :
    (l.set m a).get? n = l.get? n := by
  induction l generalizing m n with
  | nil => simp
  | cons x xs ih =>
    cases m with
    | zero =>
      cases n with
      | zero => omega
      | succ n' => simp [List.set]
    | succ m' =>
      cases n with
      | zero => simp [List.set]
      | succ n' => simpa [List.set] using ih m' n' (by omega)

theorem get?_set_self (l : List ℕ) (m a : ℕ) (h : m < l.length) :
    (l.set m a).get? m = some a := by
  induction l generalizing m with
  | nil => simp at h
  | cons x xs ih =>
    cases m with
    | zero => simp [List.set]
    | succ m' => simpa [List.set] using ih m' (by simpa using h)

theorem writePixel_eq (d : List ℕ) (w x y : ℕ) (b : List ℕ) :
    writePixel d w x y b =
      ((b.set ((y * w + x) * 4 + 0) (clampPix d w x y 0)).set
        ((y * w + x) * 4 + 1) (clampPix d w x y 1)).set
        ((y * w + x) * 4 + 2) (clampPix d w x y 2) := by
  rw [writePixel, range3]; rfl

theorem writePixel_length (d : List ℕ) (w x y : ℕ) (b : List ℕ) :
    (writePixel d w x y b).length = b.length := by
  rw [writePixel_eq]; simp

theorem writePixel_get?_ne (d : List ℕ) (w x y : ℕ) (b : List ℕ) {i : ℕ}
    (h : ∀ c < 3, i ≠ (y * w + x) * 4 + c) :
    (writePixel d w x y b).get? i = b.get? i := by
  rw [writePixel_eq,
    get?_set_ne _ _ _ _ (Ne.symm (h 2 (by omega))),
    get?_set_ne _ _ _ _ (Ne.symm (h 1 (by omega))),
    get?_set_ne _ _ _ _ (Ne.symm (h 0 (by omega)))]

theorem writePixel_get?_eq (d : List ℕ) (w x y : ℕ) (b : List ℕ) {c : ℕ}
    (hc : c < 3) (hlen : (y * w + x) * 4 + c < b.length) :
    (writePixel d w x y b).get? ((y * w + x) * 4 + c) = some (clampPix d w x y c) := by
  rw [writePixel_eq]
  interval_cases c
  · rw [get?_set_ne _ _ _ _ (by omega), get?_set_ne _ _ _ _ (by omega),
      get?_set_self _ _ _ (by simpa using hlen)]
  · rw [get?_set_ne _ _ _ _ (by omega),
      get?_set_self _ _ _ (by simpa using hlen)]
  · rw [get?_set_self _ _ _ (by simpa using hlen)]

theorem rowFold_length (d : List ℕ) (w y : ℕ) (l : List ℕ) (b : List ℕ) :
    (l.foldl (fun acc j => writePixel d w (j + 1) y acc) b).length = b.length := by
  induction l generalizing b with
  | nil => rfl
  | cons a l ih => rw [List.foldl_cons, ih, writePixel_length]

theorem rowFold_get?_ne (d : List ℕ) (w y : ℕ) (l : List ℕ) (b : List ℕ) {i : ℕ}
    (h : ∀ j ∈ l, ∀ c < 3, i ≠ (y * w + (j + 1)) * 4 + c) :
    (l.foldl (fun acc j => writePixel d w (j + 1) y acc) b).get? i = b.get? i := by
  induction l generalizing b with
  | nil => rfl
  | cons a l ih =>
    rw [List.foldl_cons, ih _ (fun j hj => h j (List.mem_cons_of_mem a hj)),
      writePixel_get?_ne _ _ _ _ _ (h a (List.mem_cons_self a l))]

theorem rowFold_get?_eq (d : List ℕ) (w y : ℕ) {x c : ℕ}
    (hx1 : 1 ≤ x) (hc : c < 3) :
    ∀ n (b : List ℕ), x - 1 < n → (y * w + x) * 4 + c < b.length →
    ((List.range n).foldl (fun acc j => writePixel d w (j + 1) y acc) b).get?
        ((y * w + x) * 4 + c) = some (clampPix d w x y c) := by
  intro n
  induction n with
  | zero => omega
  | succ k ih =>
    intro b hxk hlen
    rw [List.range_succ, List.foldl_append, List.foldl_cons, List.foldl_nil]
    by_cases hxe : x = k + 1
    · subst hxe
      exact writePixel_get?_eq _ _ _ _ _ hc (by rw [rowFold_length]; exact hlen)
    · rw [writePixel_get?_ne _ _ _ _ _ (fun c' hc' heq => by omega)]
      exact ih b (by omega) hlen

theorem pixel_index_inj {w x x' y y' c c' : ℕ} (hx : x < w) (hx' : x' < w)
    (hc : c < 4) (hc' : c' < 4) (h : (y * w + x) * 4 + c = (y' * w + x') * 4 + c') :
    y = y' ∧ x = x' ∧ c = c' := by
  have h2 : y * w + x = y' * w + x' := by omega
  have hyy : y = y' := by
    rcases Nat.lt_trichotomy y y' with hlt | he | hgt
    · exfalso
      have hm : (y + 1) * w ≤ y' * w := mul_le_mul_right' (by omega) w
      rw [Nat.succ_mul] at hm
      omega
    · exact he
    · exfalso
      have hm : (y' + 1) * w ≤ y * w := mul_le_mul_right' (by omega) w
      rw [Nat.succ_mul] at hm
      omega
  subst hyy
  omega

theorem writeRow_length (d : List ℕ) (w y : ℕ) (b : List ℕ) :
    (writeRow d w y b).length = b.length := rowFold_length d w y _ b

theorem writeRow_get?_ne (d : List ℕ) (w y : ℕ) (b : List ℕ) {i : ℕ}
    (h : ∀ x' c', 1 ≤ x' → x' + 1 < w → c' < 3 → i ≠ (y * w + x') * 4 + c') :
    (writeRow d w y b).get? i = b.get? i := by
  apply rowFold_get?_ne
  intro j hj c' hc'
  rw [List.mem_range] at hj
  exact h (j + 1) c' (by omega) (by omega) hc'

theorem writeRow_get?_eq (d : List ℕ) (w y : ℕ) (b : List ℕ) {x c : ℕ}
    (hx1 : 1 ≤ x) (hxw : x + 1 < w) (hc : c < 3)
    (hlen : (y * w + x) * 4 + c < b.length) :
    (writeRow d w y b).get? ((y * w + x) * 4 + c) = some (clampPix d w x y c) :=
  rowFold_get?_eq d w y hx1 hc (w - 2) b (by omega) hlen

theorem colFold_length (d : List ℕ) (w : ℕ) (l : List ℕ) (b : List ℕ) :
    (l.foldl (fun acc j => writeRow d w (j + 1) acc) b).length = b.length := by
  induction l generalizing b with
  | nil => rfl
  | cons a l ih => rw [List.foldl_cons, ih, writeRow_length]

theorem colFold_get?_ne (d : List ℕ) (w : ℕ) (l : List ℕ) (b : List ℕ) {i : ℕ}
    (h : ∀ j ∈ l, ∀ x' c', 1 ≤ x' → x' + 1 < w → c' < 3 →
      i ≠ (((j + 1)) * w + x') * 4 + c') :
    (l.foldl (fun acc j => writeRow d w (j + 1) acc) b).get? i = b.get? i := by
  induction l generalizing b with
  | nil => rfl
  | cons a l ih =>
    rw [List.foldl_cons, ih _ (fun j hj => h j (List.mem_cons_of_mem a hj)),
      writeRow_get?_ne _ _ _ _ (h a (List.mem_cons_self a l))]

theorem colFold_get?_eq (d : List ℕ) (w : ℕ) {x y c : ℕ}
    (hx1 : 1 ≤ x) (hxw : x + 1 < w) (hy1 : 1 ≤ y) (hc : c < 3) :
    ∀ n (b : List ℕ), y - 1 < n → (y * w + x) * 4 + c < b.length →
    ((List.range n).foldl (fun acc j => writeRow d w (j + 1) acc) b).get?
        ((y * w + x) * 4 + c) = some (clampPix d w x y c) := by
  intro n
  induction n with
  | zero => omega
  | succ k ih =>
    intro b hyk hlen
    rw [List.range_succ, List.foldl_append, List.foldl_cons, List.foldl_nil]
    by_cases hye : y = k + 1
    · subst hye
      exact writeRow_get?_eq _ _ _ _ hx1 hxw hc (by rw [colFold_length]; exact hlen)
    · rw [writeRow_get?_ne _ _ _ _ ?hne]
      · exact ih b (by omega) hlen
      case hne =>
        intro x' c' hx'1 hx'w hc' heq
        obtain ⟨hy', -, -⟩ := pixel_index_inj (by omega) (by omega) (by omega) (by omega) heq
        omega

theorem decompose_mod_div {w p x y : ℕ} (hx : x < w) (hp : y * w + x = p) :
    p % w = x ∧ p / w = y := by
  subst hp
  constructor
  · rw [Nat.add_comm, Nat.add_mul_mod_self_right, Nat.mod_eq_of_lt hx]
  · rw [Nat.add_comm, Nat.add_mul_div_right _ _ (by omega : 0 < w),
      Nat.div_eq_of_lt hx]
    omega

theorem sharpenData_length (d : List ℕ) (w h : ℕ) :
    (sharpenData d w h).length = d.length := colFold_length d w _ d

theorem sharpenData_get?_interior (d : List ℕ) {w h x y c : ℕ}
    (hx1 : 1 ≤ x) (hxw : x + 1 < w) (hy1 : 1 ≤ y) (hyh : y + 1 < h) (hc : c < 3)
    (hlen : d.length = 4 * w * h) :
    (sharpenData d w h).get? ((y * w + x) * 4 + c) = some (clampPix d w x y c) := by
  apply colFold_get?_eq d w hx1 hxw hy1 hc (h - 2) d (by omega)
  have h1 : y * w + x < (y + 1) * w := by rw [Nat.succ_mul]; omega
  have h2 : (y + 1) * w ≤ h * w := mul_le_mul_right' (by omega) w
  have h3 : y * w + x < h * w := lt_of_lt_of_le h1 h2
  have h4 : 4 * w * h = 4 * (h * w) := by ring
  omega

theorem sharpenData_get?_frame (d : List ℕ) {w h i : ℕ}
    (hcond : i % 4 = 3 ∨ (i / 4) % w = 0 ∨ (i / 4) % w + 1 = w ∨
      i / 4 / w = 0 ∨ i / 4 / w + 1 = h) :
    (sharpenData d w h).get? i = d.get? i := by
  apply colFold_get?_ne
  intro j hj x' c' hx'1 hx'w hc' heq
  rw [List.mem_range] at hj
  have hx'w' : x' < w := by omega
  have hc4 : i % 4 = c' := by omega
  have hT : (j + 1) * w + x' = i / 4 := by omega
  obtain ⟨hmod, hdiv⟩ := decompose_mod_div hx'w' hT
  omega

/-- C10: `sharpenImage` preserves the dimensions and, at every border pixel
(x = 0, x = width−1, y = 0 or y = height−1) and at the alpha channel of
every pixel, leaves the stored byte unchanged; only interior R, G, B bytes
are written. -/
theorem sharpenImage_frame (img : ImageData) (x y c : ℕ)
    (hx : x < img.width) (hc : c < 4)
    (hborder : c = 3 ∨ x = 0 ∨ x + 1 = img.width ∨ y = 0 ∨ y + 1 = img.height) :
    (sharpenImage img).width = img.width ∧
    (sharpenImage img).height = img.height ∧
    (sharpenImage img).data.length = img.data.length ∧
    (sharpenImage img).data.get? ((y * img.width + x) * 4 + c) =
      img.data.get? ((y * img.width + x) * 4 + c) := by
  refine ⟨rfl, rfl, sharpenData_length _ _ _, ?_⟩
  apply sharpenData_get?_frame
  have h4 : ((y * img.width + x) * 4 + c) % 4 = c := by omega
  have hT : y * img.width + x = ((y * img.width + x) * 4 + c) / 4 := by omega
  obtain ⟨hmod, hdiv⟩ := decompose_mod_div hx hT
  rcases hborder with h | h | h | h | h
  · exact Or.inl (by omega)
  · exact Or.inr (Or.inl (by omega))
  · exact Or.inr (Or.inr (Or.inl (by omega)))
  · exact Or.inr (Or.inr (Or.inr (Or.inl (by omega))))
  · exact Or.inr (Or.inr (Or.inr (Or.inr (by omega))))

/-- C5 (amended): sharpening is a pure function of the input pixels (two
runs on identical data give identical output), and each interior pixel's
R, G, B value equals the 3×3 convolution with center weight 5.7,
four-neighbor weight −1, corners 0, clamped to [0, 255] and rounded to the
nearest byte (ties to even) by the `Uint8ClampedArray` store. -/
theorem sharpenImage_interior_conv (img : ImageData) (x y c : ℕ)
    (hlen : img.data.length = 4 * img.width * img.height)
    (hx1 : 1 ≤ x) (hxw : x + 1 < img.width) (hy1 : 1 ≤ y) (hyh : y + 1 < img.height)
    (hc : c < 3) :
    (sharpenImage img).data.get? ((y * img.width + x) * 4 + c) =
      some (clampRound (specSharpConv img.data img.width x y c)) ∧
    ∀ img2 : ImageData, img2.width = img.width → img2.height = img.height →
      img2.data = img.data → sharpenImage img2 = sharpenImage img := by
  constructor
  · rw [show (sharpenImage img).data = sharpenData img.data img.width img.height from rfl,
      sharpenData_get?_interior img.data hx1 hxw hy1 hyh hc hlen, clampPix, convVal_eq_spec]
  · intro img2 h1 h2 h3
    cases img; cases img2
    dsimp at h1 h2 h3
    subst h1; subst h2; subst h3
    rfl

/-- A 3×3 test image whose only non-zero byte is R = 1 at the center. -/
def tinyImageData : List ℕ :=
  [0, 0, 0, 0,  0, 0, 0, 0,  0, 0, 0, 0,
   0, 0, 0, 0,  1, 0, 0, 0,  0, 0, 0, 0,
   0, 0, 0, 0,  0, 0, 0, 0,  0, 0, 0, 0]

/-- C5 fails as stated: at the center pixel of `tinyImageData` the stored
byte is 6, while the clamped convolution value is 5.7 — a stored byte can
only equal the convolution after rounding. -/
theorem sharpen_value_not_exact_conv :
    (sharpenImage ⟨3, 3, tinyImageData⟩).data.get? 16 = some 6 ∧
    specSharpConv tinyImageData 3 1 1 0 = 57 / 10 ∧
    ((6 : ℚ) ≠ 57 / 10) := by
  have hs : specSharpConv tinyImageData 3 1 1 0 = 57 / 10 := by
    have d16 : dataGet tinyImageData ((1 * 3 + 1) * 4 + 0) = 1 := by decide
    have dUp : dataGet tinyImageData (((1 - 1) * 3 + 1) * 4 + 0) = 0 := by decide
    have dDown : dataGet tinyImageData (((1 + 1) * 3 + 1) * 4 + 0) = 0 := by decide
    have dLeft : dataGet tinyImageData ((1 * 3 + (1 - 1)) * 4 + 0) = 0 := by decide
    have dRight : dataGet tinyImageData ((1 * 3 + (1 + 1)) * 4 + 0) = 0 := by decide
    rw [specSharpConv, d16, dUp, dDown, dLeft, dRight]
    norm_num
  refine ⟨?_, hs, by norm_num⟩
  have h := sharpenData_get?_interior tinyImageData (w := 3) (h := 3) (x := 1) (y := 1)
    (c := 0) (by norm_num) (by norm_num) (by norm_num) (by norm_num) (by norm_num)
    (by decide)
  rw [show (sharpenImage ⟨3, 3, tinyImageData⟩).data = sharpenData tinyImageData 3 3 from rfl,
    show (16 : ℕ) = (1 * 3 + 1) * 4 + 0 from rfl, h]
  congr 1
  rw [clampPix, convVal_eq_spec, hs]
  have hmax : max (0 : ℚ) (57 / 10) = 57 / 10 := by norm_num [max_def]
  have hmin : min (255 : ℚ) (57 / 10) = 57 / 10 := by norm_num [min_def]
  have hfl : (⌊(57 / 10 : ℚ)⌋ : ℤ) = 5 := by
    rw [Int.floor_eq_iff] <;> norm_num
  simp only [clampRound, hmax, hmin, hfl]
  norm_num
  decide

/-- Closed instance of the C5 theorem. -/
theorem sharpenImage_interior_conv_witness :
    (sharpenImage ⟨3, 3, tinyImageData⟩).data.get? ((1 * 3 + 1) * 4 + 0) =
      some (clampRound (specSharpConv tinyImageData 3 1 1 0)) :=
  (sharpenImage_interior_conv ⟨3, 3, tinyImageData⟩ 1 1 0 (by decide) (by decide)
    (by decide) (by decide) (by decide) (by decide)).1

/-- Closed instance of the C10 theorem. -/
theorem sharpenImage_frame_witness :
    (sharpenImage ⟨3, 3, tinyImageData⟩).data.get? ((0 * 3 + 0) * 4 + 3) =
      tinyImageData.get? ((0 * 3 + 0) * 4 + 3) :=
  (sharpenImage_frame ⟨3, 3, tinyImageData⟩ 0 0 3 (by decide) (by decide)
    (Or.inl rfl)).2.2.2
